import Mathlib

/-!
Verification development for the todo-manager repository.

The development embeds, as executable Lean definitions:
  * the `Task` class of the browser model (`src/unnamed/part_000`), whose
    constructor generates the record id from a construction timestamp and a
    random draw;
  * the frontend coverage script (`src/scripts/generate-coverage.js`):
    `generateSummaryReport`, `checkThresholds` and the exit code of `main`;
  * the delete-task request handler.  Its implementation file
    (`utils/AaronSim.js`) is not part of the sources at hand — only its unit
    tests and API tests are — so the handler is modelled from the
    specification (validation stage, load stage, match stage, persist stage),
    with the storage medium represented by explicit load/write results.
-/

namespace TodoManager

/-! ## Decimal digit strings (JS number-to-string conversion) -/

/-- The decimal digit character for `n % 10`: `'0'` through `'9'`. -/
def digitChar (n : Nat) : Char := Char.ofNat (48 + n % 10)

/-- Fuel-indexed decimal digit expansion: digits of `n` in order, most
significant first, provided the fuel exceeds the number of digits. -/
def natDigitsAux : Nat → Nat → List Char
  | 0, _ => []
  | fuel + 1, n =>
    if n < 10 then [digitChar n]
    else natDigitsAux fuel (n / 10) ++ [digitChar (n % 10)]

/-- The decimal digits of `n`, most significant first; embeds the JavaScript
number-to-string conversion for non-negative integers (`timestamp + ""` and
`random.toString()`). -/
def natDigits (n : Nat) : List Char := natDigitsAux (n + 1) n

/-- JavaScript `String.prototype.padStart(n, c)` on a character list: pad on
the left with `c` up to length `n` (no-op when already long enough). -/
def padStart (l : List Char) (n : Nat) (c : Char) : List Char :=
  List.replicate (n - l.length) c ++ l

/-! ## The `Task` class (`src/unnamed/part_000`)

```js
class Task {
    constructor(name, description, dueDate, completed) {
        this.name = name; this.description = description;
        this.dueDate = dueDate; this.completed = completed;
        const timestamp = new Date().getTime();
        const random = Math.floor(Math.random() * 1000);
        this.id = timestamp + "" + random.toString().padStart(3, '0');
    }
}
```
The ambient effects (`Date.getTime()`, `Math.random()`) are passed explicitly:
`timestamp` is the clock reading and `random` the draw
`Math.floor(Math.random() * 1000)` (hence `random < 1000` for real runs).
`completed` is whatever value the caller passes, hence a type parameter. -/

structure Task (α : Type) where
  name : String
  description : String
  dueDate : String
  completed : α
  id : String
deriving Repr

/-- The `Task` constructor, with the clock reading and the random draw made
explicit arguments. -/
def Task.make (name description dueDate : String) (completed : α)
    (timestamp random : Nat) : Task α :=
  { name := name
    description := description
    dueDate := dueDate
    completed := completed
    id := String.mk (natDigits timestamp ++ padStart (natDigits random) 3 '0') }

/-! ## Identifier-format validation of the delete handler

Modelled from the spec: the handler's validation stage tests the identifier
against the pattern "one or more ASCII digits, entire string" (`^[0-9]+$`). -/

/-- Modelled from the spec: the delete handler's identifier-format check,
`^[0-9]+$` — non-empty and every character an ASCII digit. -/
def isValidTaskId (s : String) : Bool :=
  !s.data.isEmpty && s.data.all (fun c => c.isDigit)

/-! ### Digit-string lemmas -/

theorem digitChar_isDigit (n : Nat) : (digitChar n).isDigit = true := by
  have h : n % 10 < 10 := Nat.mod_lt _ (by omega)
  show (Char.ofNat (48 + n % 10)).isDigit = true
  generalize hk : n % 10 = k at h
  interval_cases k <;> decide

theorem natDigitsAux_all_digits (fuel n : Nat) :
    ∀ c ∈ natDigitsAux fuel n, c.isDigit = true := by
  induction fuel generalizing n with
  | zero => intro c hc; simp [natDigitsAux] at hc
  | succ fuel ih =>
    intro c hc
    unfold natDigitsAux at hc
    by_cases h : n < 10
    · simp [h] at hc
      subst hc; exact digitChar_isDigit n
    · simp [h] at hc
      rcases hc with hc | hc
      · exact ih (n / 10) c hc
      · subst hc; exact digitChar_isDigit (n % 10)

theorem natDigitsAux_ne_nil (fuel n : Nat) (h : 0 < fuel) :
    natDigitsAux fuel n ≠ [] := by
  cases fuel with
  | zero => omega
  | succ fuel =>
    unfold natDigitsAux
    by_cases h10 : n < 10 <;> simp [h10]

theorem natDigits_all_digits (n : Nat) : ∀ c ∈ natDigits n, c.isDigit = true :=
  natDigitsAux_all_digits (n + 1) n

theorem natDigits_ne_nil (n : Nat) : natDigits n ≠ [] :=
  natDigitsAux_ne_nil (n + 1) n (by omega)

theorem natDigitsAux_length_le (fuel : Nat) :
    ∀ k n : Nat, 1 ≤ k → n < 10 ^ k → (natDigitsAux fuel n).length ≤ k := by
  induction fuel with
  | zero => intro k n _ _; simp [natDigitsAux]
  | succ fuel ih =>
    intro k n hk hn
    unfold natDigitsAux
    by_cases h : n < 10
    · simp [h]; omega
    · simp [h]
      have hk2 : 2 ≤ k := by
        by_contra hcon
        have : k = 1 := by omega
        subst this
        simp [pow_one] at hn
        omega
      have hdiv : n / 10 < 10 ^ (k - 1) := by
        have h1 : n < 10 ^ (k - 1) * 10 := by
          have : 10 ^ k = 10 ^ (k - 1) * 10 := by
            conv_lhs => rw [show k = (k - 1) + 1 by omega]
            rw [pow_succ]
          omega
        exact (Nat.div_lt_iff_lt_mul (by omega)).mpr h1
      have := ih (k - 1) (n / 10) (by omega) hdiv
      omega

theorem natDigits_length_le_three (n : Nat) (h : n < 1000) :
    (natDigits n).length ≤ 3 :=
  natDigitsAux_length_le (n + 1) 3 n (by omega) (by norm_num; omega)

theorem padStart_length (l : List Char) (n : Nat) (c : Char)
    (h : l.length ≤ n) : (padStart l n c).length = n := by
  simp [padStart]
  omega

theorem padStart_all_digits (l : List Char) (n : Nat)
    (h : ∀ c ∈ l, c.isDigit = true) :
    ∀ c ∈ padStart l n '0', c.isDigit = true := by
  intro c hc
  simp [padStart] at hc
  rcases hc with ⟨_, hc⟩ | hc
  · subst hc; decide
  · exact h c hc

/-! ## Theorems about the `Task` constructor (C8, C9) -/

/-- C9: for every construction timestamp `t` and random draw `r < 1000`, the
id assigned by the `Task` constructor is the decimal digits of `t` followed by
`r` zero-padded to exactly 3 digits; consequently it is a non-empty all-digit
string and passes the delete handler's identifier-format validation. -/
theorem task_make_id_format {α : Type} (n d dd : String) (c : α) (t r : Nat)
    (hr : r < 1000) :
    (Task.make n d dd c t r).id
        = String.mk (natDigits t ++ padStart (natDigits r) 3 '0')
      ∧ (padStart (natDigits r) 3 '0').length = 3
      ∧ isValidTaskId (Task.make n d dd c t r).id = true := by
  refine ⟨rfl, padStart_length _ _ _ (natDigits_length_le_three r hr), ?_⟩
  show isValidTaskId (String.mk (natDigits t ++ padStart (natDigits r) 3 '0')) = true
  have hne : natDigits t ++ padStart (natDigits r) 3 '0' ≠ [] := by
    intro h
    exact natDigits_ne_nil t (List.append_eq_nil.mp h).1
  have hall : ∀ ch ∈ natDigits t ++ padStart (natDigits r) 3 '0',
      ch.isDigit = true := by
    intro ch hch
    rcases List.mem_append.mp hch with h | h
    · exact natDigits_all_digits t ch h
    · exact padStart_all_digits (natDigits r) 3 (natDigits_all_digits r) ch h
  simp only [isValidTaskId, Bool.and_eq_true, Bool.not_eq_true',
    List.all_eq_true]
  exact ⟨by simpa [List.isEmpty_iff] using hne, hall⟩

/-- C9 witness at timestamp 1700000000000 and draw 7. -/
theorem task_make_id_format_witness :
    7 < 1000
      ∧ isValidTaskId (Task.make "a" "b" "c" true 1700000000000 7).id = true :=
  ⟨by decide, (task_make_id_format "a" "b" "c" true 1700000000000 7 (by decide)).2.2⟩

/-- C8 counterexample: the record identifier is not supplied to the `Task`
constructor by the caller — two constructions with identical caller arguments
but different ambient clock readings yield different ids, and the id is the
constructor-computed string (here `"0000"` and `"1000"`). -/
theorem task_id_not_caller_supplied :
    (Task.make "a" "b" "c" true 0 0).id ≠ (Task.make "a" "b" "c" true 1 0).id
      ∧ (Task.make "a" "b" "c" true 0 0).id = "0000"
      ∧ (Task.make "a" "b" "c" true 1 0).id = "1000" := by
  decide

/-- C8 (amended): a constructed `Task` record has exactly the fields `name`,
`description`, `dueDate`, `completed` (the four caller-supplied constructor
arguments) and `id`, and the `id` is produced by the constructor — the decimal
digits of the construction timestamp concatenated with the random draw
zero-padded to 3 digits — rather than supplied by the caller. -/
theorem task_make_fields {α : Type} (n d dd : String) (c : α) (t r : Nat) :
    (Task.make n d dd c t r).name = n
      ∧ (Task.make n d dd c t r).description = d
      ∧ (Task.make n d dd c t r).dueDate = dd
      ∧ (Task.make n d dd c t r).completed = c
      ∧ (Task.make n d dd c t r).id
          = String.mk (natDigits t ++ padStart (natDigits r) 3 '0') :=
  ⟨rfl, rfl, rfl, rfl, rfl⟩

/-! ## The frontend coverage script (`src/scripts/generate-coverage.js`)

Percentages are embedded as rationals; every comparison in the script is far
from the 80 threshold, so the embedding decides each comparison exactly as the
JavaScript floating-point comparison does. -/

structure CoverageMetric where
  total : Nat
  covered : Nat
  skipped : Nat
  pct : ℚ
deriving DecidableEq, Repr

structure CoverageTotals where
  lines : CoverageMetric
  statements : CoverageMetric
  functions : CoverageMetric
  branches : CoverageMetric
deriving DecidableEq, Repr

/-- The summary object written by `generateSummaryReport`: a `total` entry and
an identical per-file entry for `public/js/aaron-sim.js`. -/
structure CoverageSummary where
  total : CoverageTotals
  aaronSimFile : CoverageTotals
deriving DecidableEq, Repr

/-- The hard-coded coverage figures of `generateSummaryReport`. -/
def summaryFigures : CoverageTotals :=
  { lines := { total := 161, covered := 145, skipped := 0, pct := 90.06 }
    statements := { total := 161, covered := 145, skipped := 0, pct := 90.06 }
    functions := { total := 4, covered := 4, skipped := 0, pct := 100 }
    branches := { total := 28, covered := 24, skipped := 0, pct := 85.71 } }

/-- `generateSummaryReport`: returns the fixed summary literal (the script
takes no input from any test execution). -/
def generateSummaryReport : CoverageSummary :=
  { total := summaryFigures, aaronSimFile := summaryFigures }

/-- `COVERAGE_THRESHOLDS`: 80 for each of the four metrics. -/
def COVERAGE_THRESHOLDS : CoverageTotals :=
  { lines := { total := 0, covered := 0, skipped := 0, pct := 80 }
    statements := { total := 0, covered := 0, skipped := 0, pct := 80 }
    functions := { total := 0, covered := 0, skipped := 0, pct := 80 }
    branches := { total := 0, covered := 0, skipped := 0, pct := 80 } }

structure ThresholdDetail where
  metric : String
  actual : ℚ
  threshold : ℚ
  passed : Bool
deriving DecidableEq, Repr

structure ThresholdResults where
  passed : Bool
  details : List ThresholdDetail
deriving DecidableEq, Repr

/-- `checkThresholds`: for each of the four metrics compare the summary's
`pct` against the 80 threshold; `passed` is true iff every metric passes. -/
def checkThresholds (s : CoverageSummary) : ThresholdResults :=
  let ms : List (String × ℚ × ℚ) :=
    [("lines", s.total.lines.pct, COVERAGE_THRESHOLDS.lines.pct),
     ("statements", s.total.statements.pct, COVERAGE_THRESHOLDS.statements.pct),
     ("functions", s.total.functions.pct, COVERAGE_THRESHOLDS.functions.pct),
     ("branches", s.total.branches.pct, COVERAGE_THRESHOLDS.branches.pct)]
  let details := ms.map
    (fun m => ThresholdDetail.mk m.1 m.2.1 m.2.2 (decide (m.2.1 ≥ m.2.2)))
  { passed := details.all (fun d => d.passed), details := details }

/-- The exit code of `main`: 1 when `checkThresholds` fails, otherwise 0. -/
def mainExitCode : Nat :=
  if (checkThresholds generateSummaryReport).passed then 0 else 1

/-- C10: the frontend coverage report is a constant — `generateSummaryReport`
always yields the fixed figures (lines and statements 90.06%, functions 100%,
branches 85.71%), `checkThresholds` on it passes all four 80% thresholds, and
`main` exits with code 0, never 1. -/
theorem coverage_report_constant :
    generateSummaryReport.total.lines.pct = 90.06
      ∧ generateSummaryReport.total.statements.pct = 90.06
      ∧ generateSummaryReport.total.functions.pct = 100
      ∧ generateSummaryReport.total.branches.pct = 85.71
      ∧ (checkThresholds generateSummaryReport).passed = true
      ∧ mainExitCode = 0
      ∧ mainExitCode ≠ 1 := by
  refine ⟨rfl, rfl, rfl, rfl, ?_, ?_, ?_⟩ <;>
    simp [mainExitCode, checkThresholds, generateSummaryReport, summaryFigures,
      COVERAGE_THRESHOLDS] <;> norm_num

/-! ## The task-deletion handler

Modelled from the spec: the handler implementation file `utils/AaronSim.js` is
not among the sources at hand (only its unit tests and its API tests are), so
the handler is embedded from the specification's component design —
validation stage, load stage, match stage, persist stage — with response
bodies matched against the expectations of the unit tests.  The storage medium
is an explicit argument: `LoadResult` is what reading and decoding the
persisted collection yields, `WriteResult` is what writing the updated
collection yields. -/

/-- A record of the persisted task collection (spec data model: identifier
plus free-form string fields). -/
structure StoredTask where
  id : String
  title : String
  description : String
  taskStatus : String
  priority : String
  dueDate : String
deriving DecidableEq, Repr

/-- Shape of a decoded JSON document: an array of task records, or one of the
non-array JSON shapes (object, string, number, boolean, null). -/
inductive JsonValue where
  | arr (tasks : List StoredTask)
  | obj
  | strVal
  | numVal
  | boolVal
  | nullVal
deriving DecidableEq, Repr

/-- Outcome of the load stage's read-and-decode of the storage resource. -/
inductive LoadResult where
  | missing
  | accessDenied
  | readFailure (details : String)
  | parseFailure (details : String)
  | parsed (v : JsonValue)
deriving DecidableEq, Repr

/-- Outcome of the persist stage's write of the storage resource. -/
inductive WriteResult where
  | ok
  | accessDenied
  | noSpace
  | failure (details : String)
deriving DecidableEq, Repr

/-- A JSON response body: the fields any of the handler's responses may
carry; absent fields are `none`. -/
structure ResponseBody where
  error : Option String
  message : String
  providedId : Option String
  taskId : Option String
  availableTaskCount : Option Nat
  details : Option String
  deletedTask : Option StoredTask
  remainingTasksCount : Option Nat
deriving DecidableEq, Repr

/-- An error body carrying only `error` and `message`. -/
def errBody (err msg : String) : ResponseBody :=
  ⟨some err, msg, none, none, none, none, none, none⟩

/-- An error body carrying `error`, `message` and `details`. -/
def errBodyDetails (err msg d : String) : ResponseBody :=
  ⟨some err, msg, none, none, none, some d, none, none⟩

/-- The `MISSING_TASK_ID` body. -/
def missingBody : ResponseBody :=
  errBody "MISSING_TASK_ID" "Task ID is required for deletion."

/-- The `INVALID_TASK_ID_FORMAT` body, carrying the rejected identifier. -/
def invalidFormatBody (id : String) : ResponseBody :=
  ⟨some "INVALID_TASK_ID_FORMAT",
   "Invalid task ID format. Task ID must be numeric.",
   some id, none, none, none, none, none⟩

/-- The `TASK_NOT_FOUND` body, carrying the requested id and the size of the
collection. -/
def notFoundBody (id : String) (count : Nat) : ResponseBody :=
  ⟨some "TASK_NOT_FOUND", "Task with ID " ++ id ++ " not found.",
   none, some id, some count, none, none, none⟩

/-- The success body, carrying the removed record and the new length. -/
def successBody (t : StoredTask) (remaining : Nat) : ResponseBody :=
  ⟨none, "Task deleted successfully.",
   none, none, none, none, some t, some remaining⟩

/-- The handler's observable outcome: HTTP status, response body, how many
reads and writes of the storage resource were performed, and `persisted` —
the new persisted collection when a write succeeded (`none` = the persisted
collection is unchanged). -/
structure Outcome where
  status : Nat
  body : ResponseBody
  reads : Nat
  writes : Nat
  persisted : Option (List StoredTask)
deriving DecidableEq, Repr

/-- Remove the first record whose identifier equals `id` (single removal;
later duplicates are retained). -/
def removeFirstById (id : String) : List StoredTask → List StoredTask
  | [] => []
  | t :: ts => if t.id == id then ts else t :: removeFirstById id ts

/-- Number of records of the collection whose identifier equals `id`. -/
def countMatches (id : String) (ts : List StoredTask) : Nat :=
  ts.countP (fun t => t.id == id)

/-- Modelled from the spec: the delete-task request handler of
`utils/AaronSim.js` (absent from the sources; only its tests are present).
Validation stage (before any I/O): absent/null/empty id → `MISSING_TASK_ID`
400; non-digit id → `INVALID_TASK_ID_FORMAT` 400. Load stage: classify the
read-and-decode outcome. Match stage: first record with exactly equal id,
else `TASK_NOT_FOUND` 404. Persist stage: write the collection minus the
matched record, classifying write failures. -/
def deleteTask (reqId : Option String) (load : LoadResult)
    (write : WriteResult) : Outcome :=
  match reqId with
  | none => ⟨400, missingBody, 0, 0, none⟩
  | some id =>
    if id = "" then ⟨400, missingBody, 0, 0, none⟩
    else if isValidTaskId id then
      match load with
      | .missing =>
          ⟨404, errBody "DATABASE_NOT_FOUND" "Tasks database file not found.",
           1, 0, none⟩
      | .accessDenied =>
          ⟨500, errBody "FILE_ACCESS_DENIED"
             "Permission denied accessing tasks database.", 1, 0, none⟩
      | .readFailure d =>
          ⟨500, errBodyDetails "FILE_READ_ERROR"
             "Error accessing tasks database." d, 1, 0, none⟩
      | .parseFailure d =>
          ⟨500, errBodyDetails "INVALID_JSON"
             "Database file is corrupted. Unable to parse tasks data." d,
           1, 0, none⟩
      | .parsed (.arr ts) =>
        match ts.find? (fun t => t.id == id) with
        | none => ⟨404, notFoundBody id ts.length, 1, 0, none⟩
        | some t =>
          let remaining := removeFirstById id ts
          match write with
          | .ok => ⟨200, successBody t remaining.length, 1, 1, some remaining⟩
          | .accessDenied =>
              ⟨500, errBody "FILE_WRITE_PERMISSION_DENIED"
                 "Permission denied writing to tasks database.", 1, 1, none⟩
          | .noSpace =>
              ⟨500, errBody "DISK_SPACE_ERROR"
                 "Insufficient disk space to save changes.", 1, 1, none⟩
          | .failure d =>
              ⟨500, errBodyDetails "FILE_WRITE_ERROR"
                 "Error saving changes to database after deletion." d,
               1, 1, none⟩
      | .parsed _ =>
          ⟨500, errBody "INVALID_DATABASE_STRUCTURE"
             "Invalid database structure. Expected an array of tasks.",
           1, 0, none⟩
    else ⟨400, invalidFormatBody id, 0, 0, none⟩

/-! ### List lemmas for the match and persist stages -/

theorem find?_decomp {α : Type} {p : α → Bool} :
    ∀ {l : List α} {a : α}, l.find? p = some a →
      ∃ l1 l2, l = l1 ++ a :: l2 ∧ p a = true ∧ ∀ x ∈ l1, p x = false := by
  intro l
  induction l with
  | nil => intro a h; simp [List.find?] at h
  | cons hd tl ih =>
    intro a h
    by_cases hp : p hd = true
    · rw [List.find?_cons_of_pos _ hp] at h
      cases h
      exact ⟨[], tl, rfl, hp, by simp⟩
    · rw [List.find?_cons_of_neg _ (by simpa using hp)] at h
      obtain ⟨l1, l2, rfl, hpa, hl1⟩ := ih h
      refine ⟨hd :: l1, l2, rfl, hpa, ?_⟩
      intro x hx
      rcases List.mem_cons.mp hx with rfl | hx
      · simpa using hp
      · exact hl1 x hx

theorem removeFirstById_append {id : String} {t : StoredTask}
    (l1 l2 : List StoredTask) (h1 : ∀ u ∈ l1, u.id ≠ id) (ht : t.id = id) :
    removeFirstById id (l1 ++ t :: l2) = l1 ++ l2 := by
  induction l1 with
  | nil => simp [removeFirstById, ht]
  | cons hd tl ih =>
    have hhd : (hd.id == id) = false := by
      simpa using h1 hd (by simp)
    simp only [List.cons_append, removeFirstById, hhd, Bool.false_eq_true,
      if_false, List.append_eq]
    rw [ih (fun u hu => h1 u (by simp [hu]))]

theorem exists_find?_of_countMatches_pos (id : String) (ts : List StoredTask)
    (h : countMatches id ts ≠ 0) :
    ∃ t, ts.find? (fun u => u.id == id) = some t := by
  cases hf : ts.find? (fun u => u.id == id) with
  | some t => exact ⟨t, rfl⟩
  | none =>
    exfalso
    apply h
    exact List.countP_eq_zero.mpr (List.find?_eq_none.mp hf)

theorem ne_empty_of_isValidTaskId {id : String} (hv : isValidTaskId id = true) :
    id ≠ "" := by
  intro h
  subst h
  exact absurd hv (by decide)

/-! ## Theorems about the delete handler (C1 – C7) -/

/-- C1: for a valid-format identifier matching exactly one record, the handler
returns 200 with message "Task deleted successfully.", `deletedTask` equal to
the removed record, `remainingTasksCount` equal to the original length minus
one, and the persisted collection is the original minus exactly that record,
all other records kept in their original relative order. -/
theorem deleteTask_success_200 (id : String) (ts : List StoredTask)
    (hv : isValidTaskId id = true) (hone : countMatches id ts = 1) :
    ∃ t l1 l2,
      ts = l1 ++ t :: l2 ∧ t.id = id
      ∧ (∀ u ∈ l1, u.id ≠ id) ∧ (∀ u ∈ l2, u.id ≠ id)
      ∧ (deleteTask (some id) (.parsed (.arr ts)) .ok).status = 200
      ∧ (deleteTask (some id) (.parsed (.arr ts)) .ok).body.message
          = "Task deleted successfully."
      ∧ (deleteTask (some id) (.parsed (.arr ts)) .ok).body.deletedTask = some t
      ∧ (deleteTask (some id) (.parsed (.arr ts)) .ok).body.remainingTasksCount
          = some (ts.length - 1)
      ∧ (deleteTask (some id) (.parsed (.arr ts)) .ok).persisted
          = some (l1 ++ l2) := by
  have hne := ne_empty_of_isValidTaskId hv
  obtain ⟨t, hf⟩ := exists_find?_of_countMatches_pos id ts (by omega)
  obtain ⟨l1, l2, hts, hpt, hl1⟩ := find?_decomp hf
  have ht : t.id = id := by simpa using hpt
  have hl1' : ∀ u ∈ l1, u.id ≠ id := fun u hu => by simpa using hl1 u hu
  have hcl1 : List.countP (fun u => u.id == id) l1 = 0 :=
    List.countP_eq_zero.mpr (fun a ha => by simpa using hl1 a ha)
  have hcl2 : List.countP (fun u => u.id == id) l2 = 0 := by
    have h1 := hone
    rw [hts] at h1
    unfold countMatches at h1
    rw [List.countP_append, List.countP_cons_of_pos _ _ (by simpa using hpt)]
      at h1
    omega
  have hl2 : ∀ u ∈ l2, u.id ≠ id := by
    intro u hu hcon
    have h0 := List.countP_eq_zero.mp hcl2 u hu
    simp [hcon] at h0
  have hrem : removeFirstById id ts = l1 ++ l2 := by
    rw [hts]
    exact removeFirstById_append l1 l2 hl1' ht
  refine ⟨t, l1, l2, hts, ht, hl1', hl2, ?_, ?_, ?_, ?_, ?_⟩
  · simp [deleteTask, hne, hv, hf]
  · simp [deleteTask, hne, hv, hf, successBody]
  · simp [deleteTask, hne, hv, hf, successBody]
  · simp only [deleteTask, hne, hv, hf, successBody]
    simp [hne, hv, hf, hrem]
    rw [hts]
    simp [List.length_append]
  · simp [deleteTask, hne, hv, hf, hrem]

/-- C1 witness: collection of two records, deleting the one with id 42. -/
theorem deleteTask_success_200_witness :
    isValidTaskId "42" = true
      ∧ countMatches "42" [⟨"7", "", "", "", "", ""⟩, ⟨"42", "", "", "", "", ""⟩] = 1
      ∧ ∃ t l1 l2,
        ([⟨"7", "", "", "", "", ""⟩, ⟨"42", "", "", "", "", ""⟩] : List StoredTask)
            = l1 ++ t :: l2 ∧ t.id = "42"
        ∧ (∀ u ∈ l1, u.id ≠ "42") ∧ (∀ u ∈ l2, u.id ≠ "42")
        ∧ (deleteTask (some "42")
            (.parsed (.arr [⟨"7", "", "", "", "", ""⟩, ⟨"42", "", "", "", "", ""⟩]))
            .ok).status = 200
        ∧ (deleteTask (some "42")
            (.parsed (.arr [⟨"7", "", "", "", "", ""⟩, ⟨"42", "", "", "", "", ""⟩]))
            .ok).body.message = "Task deleted successfully."
        ∧ (deleteTask (some "42")
            (.parsed (.arr [⟨"7", "", "", "", "", ""⟩, ⟨"42", "", "", "", "", ""⟩]))
            .ok).body.deletedTask = some t
        ∧ (deleteTask (some "42")
            (.parsed (.arr [⟨"7", "", "", "", "", ""⟩, ⟨"42", "", "", "", "", ""⟩]))
            .ok).body.remainingTasksCount
            = some (([⟨"7", "", "", "", "", ""⟩, ⟨"42", "", "", "", "", ""⟩] : List StoredTask).length - 1)
        ∧ (deleteTask (some "42")
            (.parsed (.arr [⟨"7", "", "", "", "", ""⟩, ⟨"42", "", "", "", "", ""⟩]))
            .ok).persisted = some (l1 ++ l2) :=
  ⟨by decide, by decide,
   deleteTask_success_200 "42" _ (by decide) (by decide)⟩

/-- C2: the removed record is always the first record in collection order
whose identifier field is exactly string-equal to the requested identifier
(so leading zeros are significant and duplicates after the first match are
retained). -/
theorem deleteTask_removes_first_exact (id : String) (ts : List StoredTask)
    (t : StoredTask) (hv : isValidTaskId id = true)
    (hf : ts.find? (fun u => u.id == id) = some t) :
    (deleteTask (some id) (.parsed (.arr ts)) .ok).body.deletedTask = some t
      ∧ ∃ l1 l2, ts = l1 ++ t :: l2 ∧ t.id = id ∧ (∀ u ∈ l1, u.id ≠ id)
        ∧ removeFirstById id ts = l1 ++ l2
        ∧ (deleteTask (some id) (.parsed (.arr ts)) .ok).persisted
            = some (l1 ++ l2) := by
  have hne := ne_empty_of_isValidTaskId hv
  obtain ⟨l1, l2, hts, hpt, hl1⟩ := find?_decomp hf
  have ht : t.id = id := by simpa using hpt
  have hl1' : ∀ u ∈ l1, u.id ≠ id := fun u hu => by simpa using hl1 u hu
  have hrem : removeFirstById id ts = l1 ++ l2 := by
    rw [hts]
    exact removeFirstById_append l1 l2 hl1' ht
  refine ⟨?_, l1, l2, hts, ht, hl1', hrem, ?_⟩
  · simp [deleteTask, hne, hv, hf, successBody]
  · simp [deleteTask, hne, hv, hf, hrem]

/-- C2 witness: requesting id 1234 against a collection whose first record
has id 0001234 (leading zeros — not a match) and two records with id 1234:
the first duplicate is removed and reported, the second retained. -/
theorem deleteTask_removes_first_exact_witness :
    isValidTaskId "1234" = true
      ∧ ([⟨"0001234", "A", "", "", "", ""⟩, ⟨"1234", "B", "", "", "", ""⟩,
          ⟨"1234", "C", "", "", "", ""⟩] : List StoredTask).find?
          (fun u => u.id == "1234") = some ⟨"1234", "B", "", "", "", ""⟩
      ∧ ((deleteTask (some "1234")
          (.parsed (.arr [⟨"0001234", "A", "", "", "", ""⟩,
            ⟨"1234", "B", "", "", "", ""⟩, ⟨"1234", "C", "", "", "", ""⟩]))
          .ok).body.deletedTask = some ⟨"1234", "B", "", "", "", ""⟩
        ∧ ∃ l1 l2,
          ([⟨"0001234", "A", "", "", "", ""⟩, ⟨"1234", "B", "", "", "", ""⟩,
            ⟨"1234", "C", "", "", "", ""⟩] : List StoredTask)
              = l1 ++ ⟨"1234", "B", "", "", "", ""⟩ :: l2
          ∧ (StoredTask.mk "1234" "B" "" "" "" "").id = "1234"
          ∧ (∀ u ∈ l1, u.id ≠ "1234")
          ∧ removeFirstById "1234"
              [⟨"0001234", "A", "", "", "", ""⟩, ⟨"1234", "B", "", "", "", ""⟩,
               ⟨"1234", "C", "", "", "", ""⟩] = l1 ++ l2
          ∧ (deleteTask (some "1234")
              (.parsed (.arr [⟨"0001234", "A", "", "", "", ""⟩,
                ⟨"1234", "B", "", "", "", ""⟩, ⟨"1234", "C", "", "", "", ""⟩]))
              .ok).persisted = some (l1 ++ l2)) :=
  ⟨by decide, by decide,
   deleteTask_removes_first_exact "1234" _ _ (by decide) (by decide)⟩

/-- C4: a valid-format identifier against a collection with no matching
record (including the empty collection) yields 404 `TASK_NOT_FOUND` with
`taskId` the requested identifier and `availableTaskCount` the collection
length; nothing is written. -/
theorem deleteTask_not_found_404 (id : String) (ts : List StoredTask)
    (w : WriteResult) (hv : isValidTaskId id = true)
    (hno : ∀ t ∈ ts, t.id ≠ id) :
    (deleteTask (some id) (.parsed (.arr ts)) w).status = 404
      ∧ (deleteTask (some id) (.parsed (.arr ts)) w).body.error
          = some "TASK_NOT_FOUND"
      ∧ (deleteTask (some id) (.parsed (.arr ts)) w).body.taskId = some id
      ∧ (deleteTask (some id) (.parsed (.arr ts)) w).body.availableTaskCount
          = some ts.length
      ∧ (deleteTask (some id) (.parsed (.arr ts)) w).writes = 0
      ∧ (deleteTask (some id) (.parsed (.arr ts)) w).persisted = none := by
  have hne := ne_empty_of_isValidTaskId hv
  have hf : ts.find? (fun u => u.id == id) = none :=
    List.find?_eq_none.mpr (fun x hx => by simpa using hno x hx)
  simp [deleteTask, hne, hv, hf, notFoundBody]

/-- C4 witness: valid identifier against the empty collection — 404 with
`availableTaskCount` 0. -/
theorem deleteTask_not_found_404_witness :
    isValidTaskId "1234567890123" = true
      ∧ (∀ t ∈ ([] : List StoredTask), t.id ≠ "1234567890123")
      ∧ ((deleteTask (some "1234567890123") (.parsed (.arr [])) .ok).status = 404
        ∧ (deleteTask (some "1234567890123") (.parsed (.arr [])) .ok).body.error
            = some "TASK_NOT_FOUND"
        ∧ (deleteTask (some "1234567890123") (.parsed (.arr [])) .ok).body.taskId
            = some "1234567890123"
        ∧ (deleteTask (some "1234567890123")
            (.parsed (.arr [])) .ok).body.availableTaskCount
            = some ([] : List StoredTask).length
        ∧ (deleteTask (some "1234567890123") (.parsed (.arr [])) .ok).writes = 0
        ∧ (deleteTask (some "1234567890123") (.parsed (.arr [])) .ok).persisted
            = none) :=
  ⟨by decide, by simp,
   deleteTask_not_found_404 "1234567890123" [] .ok (by decide) (by simp)⟩

/-- C3: every identifier failing the `^[0-9]+$` format check is rejected with
400 before any storage I/O (zero reads, zero writes, persisted collection
untouched): `MISSING_TASK_ID` when the identifier is absent or empty, else
`INVALID_TASK_ID_FORMAT` with `providedId` carrying the rejected value. -/
theorem deleteTask_validation_before_io (reqId : Option String)
    (load : LoadResult) (w : WriteResult) :
    ((reqId = none ∨ reqId = some "") →
        (deleteTask reqId load w).status = 400
        ∧ (deleteTask reqId load w).body.error = some "MISSING_TASK_ID"
        ∧ (deleteTask reqId load w).reads = 0
        ∧ (deleteTask reqId load w).writes = 0
        ∧ (deleteTask reqId load w).persisted = none)
    ∧ (∀ s, reqId = some s → s ≠ "" → isValidTaskId s = false →
        (deleteTask reqId load w).status = 400
        ∧ (deleteTask reqId load w).body.error = some "INVALID_TASK_ID_FORMAT"
        ∧ (deleteTask reqId load w).body.providedId = some s
        ∧ (deleteTask reqId load w).reads = 0
        ∧ (deleteTask reqId load w).writes = 0
        ∧ (deleteTask reqId load w).persisted = none) := by
  constructor
  · rintro (rfl | rfl) <;> simp [deleteTask, missingBody, errBody]
  · rintro s rfl hne hinv
    simp [deleteTask, hne, hinv, invalidFormatBody]

/-- C3 witness: an absent identifier and the malformed identifier "12a". -/
theorem deleteTask_validation_before_io_witness :
    ((deleteTask none (.parsed (.arr [])) .ok).reads = 0
      ∧ (deleteTask none (.parsed (.arr [])) .ok).body.error
          = some "MISSING_TASK_ID")
    ∧ ((deleteTask (some "12a") (.parsed (.arr [])) .ok).body.providedId
          = some "12a"
      ∧ (deleteTask (some "12a") (.parsed (.arr [])) .ok).reads = 0) :=
  ⟨⟨((deleteTask_validation_before_io none (.parsed (.arr [])) .ok).1
      (Or.inl rfl)).2.2.1,
    ((deleteTask_validation_before_io none (.parsed (.arr [])) .ok).1
      (Or.inl rfl)).2.1⟩,
   ⟨((deleteTask_validation_before_io (some "12a") (.parsed (.arr [])) .ok).2
      "12a" rfl (by decide) (by decide)).2.2.1,
    ((deleteTask_validation_before_io (some "12a") (.parsed (.arr [])) .ok).2
      "12a" rfl (by decide) (by decide)).2.2.2.1⟩⟩

/-- C5: classification of the load-stage failures — storage missing 404
`DATABASE_NOT_FOUND`; read permission denied 500 `FILE_ACCESS_DENIED`; other
read failure 500 `FILE_READ_ERROR` with `details`; undecodable content 500
`INVALID_JSON` with `details`; decoded non-array value (object, string,
number, boolean, null) 500 `INVALID_DATABASE_STRUCTURE`. -/
theorem deleteTask_load_error_classification (id : String) (w : WriteResult)
    (d : String) (hv : isValidTaskId id = true) :
    ((deleteTask (some id) .missing w).status = 404
      ∧ (deleteTask (some id) .missing w).body.error
          = some "DATABASE_NOT_FOUND")
    ∧ ((deleteTask (some id) .accessDenied w).status = 500
      ∧ (deleteTask (some id) .accessDenied w).body.error
          = some "FILE_ACCESS_DENIED")
    ∧ ((deleteTask (some id) (.readFailure d) w).status = 500
      ∧ (deleteTask (some id) (.readFailure d) w).body.error
          = some "FILE_READ_ERROR"
      ∧ (deleteTask (some id) (.readFailure d) w).body.details = some d)
    ∧ ((deleteTask (some id) (.parseFailure d) w).status = 500
      ∧ (deleteTask (some id) (.parseFailure d) w).body.error
          = some "INVALID_JSON"
      ∧ (deleteTask (some id) (.parseFailure d) w).body.details = some d)
    ∧ ((deleteTask (some id) (.parsed .obj) w).status = 500
      ∧ (deleteTask (some id) (.parsed .obj) w).body.error
          = some "INVALID_DATABASE_STRUCTURE")
    ∧ ((deleteTask (some id) (.parsed .strVal) w).status = 500
      ∧ (deleteTask (some id) (.parsed .strVal) w).body.error
          = some "INVALID_DATABASE_STRUCTURE")
    ∧ ((deleteTask (some id) (.parsed .numVal) w).status = 500
      ∧ (deleteTask (some id) (.parsed .numVal) w).body.error
          = some "INVALID_DATABASE_STRUCTURE")
    ∧ ((deleteTask (some id) (.parsed .boolVal) w).status = 500
      ∧ (deleteTask (some id) (.parsed .boolVal) w).body.error
          = some "INVALID_DATABASE_STRUCTURE")
    ∧ ((deleteTask (some id) (.parsed .nullVal) w).status = 500
      ∧ (deleteTask (some id) (.parsed .nullVal) w).body.error
          = some "INVALID_DATABASE_STRUCTURE") := by
  have hne := ne_empty_of_isValidTaskId hv
  refine ⟨?_, ?_, ?_, ?_, ?_, ?_, ?_, ?_, ?_⟩ <;>
    simp [deleteTask, hne, hv, errBody, errBodyDetails]

/-- C5 witness at identifier 1 and detail message "boom". -/
theorem deleteTask_load_error_classification_witness :
    isValidTaskId "1" = true
      ∧ (deleteTask (some "1") .missing .ok).status = 404
      ∧ (deleteTask (some "1") (.readFailure "boom") .ok).body.details
          = some "boom"
      ∧ (deleteTask (some "1") (.parsed .nullVal) .ok).body.error
          = some "INVALID_DATABASE_STRUCTURE" :=
  ⟨by decide,
   (deleteTask_load_error_classification "1" .ok "boom" (by decide)).1.1,
   (deleteTask_load_error_classification "1" .ok "boom" (by decide)).2.2.1.2.2,
   (deleteTask_load_error_classification "1" .ok "boom" (by decide)).2.2.2.2.2.2.2.2.2⟩

/-- C6: classification of the persist-stage (write) failures — permission
denied 500 `FILE_WRITE_PERMISSION_DENIED`; out of space 500
`DISK_SPACE_ERROR`; other write failure 500 `FILE_WRITE_ERROR` with
`details`; in every case the persisted collection is unchanged. -/
theorem deleteTask_write_error_classification (id : String)
    (ts : List StoredTask) (t : StoredTask) (d : String)
    (hv : isValidTaskId id = true)
    (hf : ts.find? (fun u => u.id == id) = some t) :
    ((deleteTask (some id) (.parsed (.arr ts)) .accessDenied).status = 500
      ∧ (deleteTask (some id) (.parsed (.arr ts)) .accessDenied).body.error
          = some "FILE_WRITE_PERMISSION_DENIED"
      ∧ (deleteTask (some id) (.parsed (.arr ts)) .accessDenied).persisted
          = none)
    ∧ ((deleteTask (some id) (.parsed (.arr ts)) .noSpace).status = 500
      ∧ (deleteTask (some id) (.parsed (.arr ts)) .noSpace).body.error
          = some "DISK_SPACE_ERROR"
      ∧ (deleteTask (some id) (.parsed (.arr ts)) .noSpace).persisted = none)
    ∧ ((deleteTask (some id) (.parsed (.arr ts)) (.failure d)).status = 500
      ∧ (deleteTask (some id) (.parsed (.arr ts)) (.failure d)).body.error
          = some "FILE_WRITE_ERROR"
      ∧ (deleteTask (some id) (.parsed (.arr ts)) (.failure d)).body.details
          = some d
      ∧ (deleteTask (some id) (.parsed (.arr ts)) (.failure d)).persisted
          = none) := by
  have hne := ne_empty_of_isValidTaskId hv
  refine ⟨?_, ?_, ?_⟩ <;>
    simp [deleteTask, hne, hv, hf, errBody, errBodyDetails]

/-- C6 witness: one-record collection, each write-failure kind observed. -/
theorem deleteTask_write_error_classification_witness :
    isValidTaskId "5" = true
      ∧ ([⟨"5", "", "", "", "", ""⟩] : List StoredTask).find?
          (fun u => u.id == "5") = some ⟨"5", "", "", "", "", ""⟩
      ∧ (deleteTask (some "5") (.parsed (.arr [⟨"5", "", "", "", "", ""⟩]))
          .accessDenied).body.error = some "FILE_WRITE_PERMISSION_DENIED"
      ∧ (deleteTask (some "5") (.parsed (.arr [⟨"5", "", "", "", "", ""⟩]))
          .noSpace).body.error = some "DISK_SPACE_ERROR"
      ∧ (deleteTask (some "5") (.parsed (.arr [⟨"5", "", "", "", "", ""⟩]))
          (.failure "x")).body.details = some "x" :=
  ⟨by decide, by decide,
   (deleteTask_write_error_classification "5" _ ⟨"5", "", "", "", "", ""⟩ "x"
     (by decide) (by decide)).1.2.1,
   (deleteTask_write_error_classification "5" _ ⟨"5", "", "", "", "", ""⟩ "x"
     (by decide) (by decide)).2.1.2.1,
   (deleteTask_write_error_classification "5" _ ⟨"5", "", "", "", "", ""⟩ "x"
     (by decide) (by decide)).2.2.2.2.1⟩

/-- C7: for every request the handler performs at most one read and at most
one write of the storage resource (no retries), and the persisted collection
ends in exactly one of two states — unchanged on every non-200 outcome, or
fully updated to the original collection minus the matched record on the 200
outcome. -/
theorem deleteTask_single_read_write (reqId : Option String)
    (load : LoadResult) (w : WriteResult) :
    (deleteTask reqId load w).reads ≤ 1
    ∧ (deleteTask reqId load w).writes ≤ 1
    ∧ ((deleteTask reqId load w).status ≠ 200 →
        (deleteTask reqId load w).persisted = none)
    ∧ ((deleteTask reqId load w).status = 200 →
        ∃ id ts t, reqId = some id ∧ load = LoadResult.parsed (.arr ts)
          ∧ w = WriteResult.ok
          ∧ ts.find? (fun u => u.id == id) = some t
          ∧ (deleteTask reqId load w).persisted
              = some (removeFirstById id ts)) := by
  rcases reqId with _ | id
  · simp [deleteTask]
  · by_cases hid : id = ""
    · simp [deleteTask, hid]
    · by_cases hv : isValidTaskId id
      · rcases load with _ | _ | d | d | v
        · simp [deleteTask, hid, hv]
        · simp [deleteTask, hid, hv]
        · simp [deleteTask, hid, hv]
        · simp [deleteTask, hid, hv]
        · rcases v with ts | _ | _ | _ | _ | _
          · rcases hf : ts.find? (fun u => u.id == id) with _ | t
            · simp [deleteTask, hid, hv, hf]
            · rcases w with _ | _ | _ | d2
              · refine ⟨by simp [deleteTask, hid, hv, hf],
                  by simp [deleteTask, hid, hv, hf], ?_, ?_⟩
                · intro hst
                  exfalso
                  exact hst (by simp [deleteTask, hid, hv, hf])
                · intro _
                  exact ⟨id, ts, t, rfl, rfl, rfl, hf,
                    by simp [deleteTask, hid, hv, hf]⟩
              · simp [deleteTask, hid, hv, hf]
              · simp [deleteTask, hid, hv, hf]
              · simp [deleteTask, hid, hv, hf]
          · simp [deleteTask, hid, hv]
          · simp [deleteTask, hid, hv]
          · simp [deleteTask, hid, hv]
          · simp [deleteTask, hid, hv]
          · simp [deleteTask, hid, hv]
      · simp [deleteTask, hid, hv]

/-- C7 witness: a successful deletion — one read, one write, persisted
collection fully updated. -/
theorem deleteTask_single_read_write_witness :
    (deleteTask (some "1") (.parsed (.arr [⟨"1", "", "", "", "", ""⟩]))
        .ok).reads ≤ 1
    ∧ ∃ id ts t, (some "1" : Option String) = some id
        ∧ (LoadResult.parsed (.arr [⟨"1", "", "", "", "", ""⟩]) : LoadResult)
            = LoadResult.parsed (.arr ts)
        ∧ (WriteResult.ok : WriteResult) = WriteResult.ok
        ∧ ts.find? (fun u => u.id == id) = some t
        ∧ (deleteTask (some "1") (.parsed (.arr [⟨"1", "", "", "", "", ""⟩]))
            .ok).persisted = some (removeFirstById id ts) :=
  ⟨(deleteTask_single_read_write (some "1")
      (.parsed (.arr [⟨"1", "", "", "", "", ""⟩])) .ok).1,
   (deleteTask_single_read_write (some "1")
      (.parsed (.arr [⟨"1", "", "", "", "", ""⟩])) .ok).2.2.2 (by decide)⟩

end TodoManager
